import Mathlib

/-!
Shallow embedding of the lseco secure-memory library (src/secure_memory.c,
src/lseco_ffi.c).

A guarded region (`struct secure_memory_t`) is modelled as a record holding
the backing bytes, the requested capacity (`size`), the platform page size,
and the protection / pinning state that the C code maintains through
`mprotect` / `mlock`.  Platform calls that can fail (`malloc`,
`posix_memalign`, `mlock`, `mprotect`) are modelled by Boolean oracles in an
environment record; the initial, uninitialised contents of freshly allocated
backing memory are modelled by an arbitrary function `init` in the same
environment.  Every operation additionally returns the ordered list of
resource / memory actions it performed (allocations, releases, pin/unpin,
protection changes with the size they cover, copies, zeroing), so that
atomicity, leak-freedom and page-coverage properties can be stated.
-/

namespace Lseco

/-- `SECURE_SUCCESS` from secure_memory.h. -/
def SECURE_SUCCESS : Int := 0

/-- `SECURE_ERR_NULL_PTR` from secure_memory.h. -/
def SECURE_ERR_NULL_PTR : Int := -1

/-- `SECURE_ERR_ALLOC_FAILED` from secure_memory.h. -/
def SECURE_ERR_ALLOC_FAILED : Int := -2

/-- `SECURE_ERR_LOCK_FAILED` from secure_memory.h. -/
def SECURE_ERR_LOCK_FAILED : Int := -3

/-- `SECURE_ERR_PROTECT_FAILED` from secure_memory.h. -/
def SECURE_ERR_PROTECT_FAILED : Int := -4

/-- `SECURE_ERR_INVALID_SIZE` from secure_memory.h. -/
def SECURE_ERR_INVALID_SIZE : Int := -5

/-- The guarded region, `struct secure_memory_t` in secure_memory.c:
`data` is the page-aligned backing block (one list element per byte),
`size` the requested capacity, `page_size` the platform page size.
`locked` models the OS protection state (`true` = PROT_NONE at rest) and
`pinned` whether the block is mlock-ed, both maintained by the C code via
`mprotect` / `mlock` on the backing block. -/
structure secure_memory_t where
  data : List Nat
  size : Nat
  page_size : Nat
  locked : Bool
  pinned : Bool
deriving DecidableEq

/-- Environment for one operation sequence: Boolean oracles for the
fallible platform calls (`malloc` of the handle struct, the page-aligned
backing allocation, `mlock`, `mprotect`) plus `init`, the arbitrary byte
contents the allocator leaves in freshly obtained memory. -/
structure Env where
  mallocOk : Bool
  allocOk : Bool
  lockOk : Bool
  protectOk : Bool
  page_size : Nat
  init : Nat → Nat

/-- Resource / memory actions an operation performs, in order.  Acquiring
actions record whether the platform call succeeded; `protect` records the
direction of the change and the number of bytes it covers. -/
inductive Act where
  | allocHandle (ok : Bool)
  | freeHandle
  | allocBacking (ok : Bool) (n : Nat)
  | freeBacking
  | pin (ok : Bool) (n : Nat)
  | unpin (n : Nat)
  | protect (allow ok : Bool) (n : Nat)
  | copyIn (n : Nat)
  | copyOut (n : Nat)
  | zero (n : Nat)
deriving DecidableEq

/-- `((size + page_size - 1) / page_size) * page_size`: the size rounded up
to a page boundary, computed identically at secure_memory.c:118, :173,
:202 and :229. -/
def alignedSize (size page_size : Nat) : Nat :=
  ((size + page_size - 1) / page_size) * page_size

/-- The same rounding expression evaluated in `size_t` arithmetic, as the
C program computes it at secure_memory.c:118 on a platform with 64-bit
`size_t`: the sum `size + page_size - 1` wraps modulo `2 ^ 64` before the
division, so for sizes within a page of `SIZE_MAX` the computed backing
size is smaller than `size` (down to 0 at `size = SIZE_MAX`). -/
def alignedSizeC (size page_size : Nat) : Nat :=
  (size + page_size - 1) % 2 ^ 64 / page_size * page_size % 2 ^ 64

/-- `memcpy(dst, src, n)` viewed as a function on byte lists: the first `n`
bytes of `src` replace the first `n` bytes of `dst`; bytes of `dst` past
`n` are untouched. -/
def memcpy (dst src : List Nat) (n : Nat) : List Nat :=
  src.take n ++ dst.drop n

/-- Result of `secure_memory_create`: the returned error code, the region
stored through the out-parameter (`none` when the out-parameter was left
unwritten), and the actions performed. -/
structure CreateResult where
  ret : Int
  region : Option secure_memory_t
  trace : List Act
deriving DecidableEq

/-- `secure_memory_create` (secure_memory.c:99-162).  `handlePresent`
models the `handle` out-pointer being non-NULL.  On each failure the code
frees what it had acquired and returns the corresponding error; on success
the region starts pinned and locked with whatever bytes the allocator
left (`env.init`). -/
def secure_memory_create (handlePresent : Bool) (size : Nat) (env : Env) :
    CreateResult :=
  if handlePresent = false then ⟨SECURE_ERR_NULL_PTR, none, []⟩
  else if size = 0 then ⟨SECURE_ERR_INVALID_SIZE, none, []⟩
  else if env.mallocOk = false then
    ⟨SECURE_ERR_ALLOC_FAILED, none, [.allocHandle false]⟩
  else
    let ps := env.page_size
    let a := alignedSize size ps
    if env.allocOk = false then
      ⟨SECURE_ERR_ALLOC_FAILED, none,
        [.allocHandle true, .allocBacking false a, .freeHandle]⟩
    else if env.lockOk = false then
      ⟨SECURE_ERR_LOCK_FAILED, none,
        [.allocHandle true, .allocBacking true a, .pin false a,
         .freeBacking, .freeHandle]⟩
    else if env.protectOk = false then
      ⟨SECURE_ERR_PROTECT_FAILED, none,
        [.allocHandle true, .allocBacking true a, .pin true a,
         .protect false false a, .unpin a, .freeBacking, .freeHandle]⟩
    else
      ⟨SECURE_SUCCESS,
        some ⟨(List.range a).map env.init, size, ps, true, true⟩,
        [.allocHandle true, .allocBacking true a, .pin true a,
         .protect false true a]⟩

/-- Result of `secure_memory_write`: the returned error code, the region
afterwards (`none` only when the handle was absent), and the actions
performed. -/
structure WriteResult where
  ret : Int
  region : Option secure_memory_t
  trace : List Act
deriving DecidableEq

/-- `secure_memory_write` (secure_memory.c:164-191): validate, grant
read-write over the aligned size, `memcpy` exactly `length` bytes in,
revoke access.  `grantOk` / `revokeOk` are the oracles for the two
`mprotect` calls; a failed grant leaves the region untouched, a failed
revoke leaves it unlocked with the data already copied. -/
def secure_memory_write (handle : Option secure_memory_t)
    (data : Option (List Nat)) (length : Nat) (grantOk revokeOk : Bool) :
    WriteResult :=
  match handle with
  | none => ⟨SECURE_ERR_NULL_PTR, none, []⟩
  | some mem =>
    match data with
    | none => ⟨SECURE_ERR_NULL_PTR, some mem, []⟩
    | some d =>
      if length = 0 ∨ mem.size < length then
        ⟨SECURE_ERR_INVALID_SIZE, some mem, []⟩
      else
        let a := alignedSize mem.size mem.page_size
        if grantOk = false then
          ⟨SECURE_ERR_PROTECT_FAILED, some mem, [.protect true false a]⟩
        else
          let mem1 : secure_memory_t :=
            ⟨memcpy mem.data d length, mem.size, mem.page_size, false,
             mem.pinned⟩
          if revokeOk = false then
            ⟨SECURE_ERR_PROTECT_FAILED, some mem1,
              [.protect true true a, .copyIn length,
               .protect false false a]⟩
          else
            ⟨SECURE_SUCCESS,
              some ⟨mem1.data, mem.size, mem.page_size, true, mem.pinned⟩,
              [.protect true true a, .copyIn length,
               .protect false true a]⟩

/-- Result of `secure_memory_read`: the returned error code, the caller's
buffer afterwards, the region afterwards, and the actions performed. -/
structure ReadResult where
  ret : Int
  buffer : Option (List Nat)
  region : Option secure_memory_t
  trace : List Act
deriving DecidableEq

/-- `secure_memory_read` (secure_memory.c:193-221): validate, grant access
over the aligned size, `memcpy` exactly `length` bytes out into the
caller's buffer, revoke access.  The region's bytes are never modified;
only its protection state toggles. -/
def secure_memory_read (handle : Option secure_memory_t)
    (buffer : Option (List Nat)) (length : Nat) (grantOk revokeOk : Bool) :
    ReadResult :=
  match handle with
  | none => ⟨SECURE_ERR_NULL_PTR, buffer, none, []⟩
  | some mem =>
    match buffer with
    | none => ⟨SECURE_ERR_NULL_PTR, none, some mem, []⟩
    | some buf =>
      if length = 0 ∨ mem.size < length then
        ⟨SECURE_ERR_INVALID_SIZE, some buf, some mem, []⟩
      else
        let a := alignedSize mem.size mem.page_size
        if grantOk = false then
          ⟨SECURE_ERR_PROTECT_FAILED, some buf, some mem,
            [.protect true false a]⟩
        else
          let out := memcpy buf mem.data length
          if revokeOk = false then
            ⟨SECURE_ERR_PROTECT_FAILED, some out,
              some ⟨mem.data, mem.size, mem.page_size, false, mem.pinned⟩,
              [.protect true true a, .copyOut length,
               .protect false false a]⟩
          else
            ⟨SECURE_SUCCESS, some out,
              some ⟨mem.data, mem.size, mem.page_size, true, mem.pinned⟩,
              [.protect true true a, .copyOut length,
               .protect false true a]⟩

/-- Result of `secure_memory_destroy`: the handle slot afterwards (the C
code writes `*handle = NULL`), the contents of the backing block at the
moment it is released (`none` when there was no region), and the actions
performed. -/
structure DestroyResult where
  slot : Option secure_memory_t
  finalContents : Option (List Nat)
  trace : List Act
deriving DecidableEq

/-- `secure_memory_destroy` (secure_memory.c:223-250): no-op on an absent
handle; otherwise it unconditionally grants access (ignoring the result,
recorded as `grantOk`), zeroes the full aligned extent, unpins, frees the
backing block and the handle struct, and nulls the slot. -/
def secure_memory_destroy (slot : Option secure_memory_t)
    (grantOk : Bool) : DestroyResult :=
  match slot with
  | none => ⟨none, none, []⟩
  | some mem =>
    let a := alignedSize mem.size mem.page_size
    ⟨none, some (List.replicate a 0),
      [.protect true grantOk a, .zero a, .unpin a, .freeBacking,
       .freeHandle]⟩

/-- `secure_memory_get_size` (secure_memory.c:252-257): 0 on a NULL
handle, the stored capacity otherwise. -/
def secure_memory_get_size (handle : Option secure_memory_t) : Nat :=
  match handle with
  | none => 0
  | some mem => mem.size

/-- `lseco_create` (lseco_ffi.c:9-23): returns NULL (`none`) when the size
is 0 or the core create fails for any reason, and the created region
otherwise. -/
def lseco_create (size : Nat) (env : Env) : Option secure_memory_t :=
  if size = 0 then none
  else
    let cr := secure_memory_create true size env
    if cr.ret ≠ SECURE_SUCCESS then none else cr.region

/-- `lseco_store` (lseco_ffi.c:26-40): re-validates the handle, data
pointer and length before delegating to `secure_memory_write`. -/
def lseco_store (handle : Option secure_memory_t)
    (data : Option (List Nat)) (length : Nat) (grantOk revokeOk : Bool) :
    WriteResult :=
  match handle with
  | none => ⟨SECURE_ERR_NULL_PTR, none, []⟩
  | some mem =>
    match data with
    | none => ⟨SECURE_ERR_NULL_PTR, some mem, []⟩
    | some d =>
      if length = 0 then ⟨SECURE_ERR_INVALID_SIZE, some mem, []⟩
      else secure_memory_write (some mem) (some d) length grantOk revokeOk

/-- `lseco_retrieve` (lseco_ffi.c:43-57): re-validates the handle, buffer
pointer and length before delegating to `secure_memory_read`. -/
def lseco_retrieve (handle : Option secure_memory_t)
    (buffer : Option (List Nat)) (length : Nat) (grantOk revokeOk : Bool) :
    ReadResult :=
  match handle with
  | none => ⟨SECURE_ERR_NULL_PTR, buffer, none, []⟩
  | some mem =>
    match buffer with
    | none => ⟨SECURE_ERR_NULL_PTR, none, some mem, []⟩
    | some buf =>
      if length = 0 then ⟨SECURE_ERR_INVALID_SIZE, some buf, some mem, []⟩
      else secure_memory_read (some mem) (some buf) length grantOk revokeOk

/-- `lseco_get_size` (lseco_ffi.c:60-68). -/
def lseco_get_size (handle : Option secure_memory_t) : Nat :=
  match handle with
  | none => 0
  | some mem => secure_memory_get_size (some mem)

/-- `lseco_destroy` (lseco_ffi.c:71-79): no-op on NULL, otherwise
delegates to `secure_memory_destroy`. -/
def lseco_destroy (handle : Option secure_memory_t) (grantOk : Bool) :
    DestroyResult :=
  match handle with
  | none => ⟨none, none, []⟩
  | some mem => secure_memory_destroy (some mem) grantOk

/-- Net number of live handle structs after a trace: successful
`malloc`s of the handle minus `free`s of it. -/
def netHandle (t : List Act) : Int :=
  t.foldl
    (fun n a =>
      match a with
      | .allocHandle true => n + 1
      | .freeHandle => n - 1
      | _ => n) 0

/-- Net number of live backing allocations after a trace. -/
def netBacking (t : List Act) : Int :=
  t.foldl
    (fun n a =>
      match a with
      | .allocBacking true _ => n + 1
      | .freeBacking => n - 1
      | _ => n) 0

/-- Net number of pinned extents after a trace: successful `mlock`s minus
`munlock`s. -/
def netPin (t : List Act) : Int :=
  t.foldl
    (fun n a =>
      match a with
      | .pin true _ => n + 1
      | .unpin _ => n - 1
      | _ => n) 0

/-- The byte counts covered by the protection changes of a trace. -/
def protectSizes (t : List Act) : List Nat :=
  t.filterMap
    (fun a =>
      match a with
      | .protect _ _ n => some n
      | _ => none)

/-- C2 counterexample: on a live region of capacity 4, `Store` with
`length == 0` returns `SECURE_ERR_INVALID_SIZE` (-5), not the
`InvalidArgument` code `SECURE_ERR_NULL_PTR` (-1) the claim asserts for
zero length. -/
theorem store_zero_length_returns_invalid_size :
    (secure_memory_write (some ⟨[0, 0, 0, 0], 4, 4, true, true⟩)
        (some [1]) 0 true true).ret = SECURE_ERR_INVALID_SIZE ∧
    SECURE_ERR_INVALID_SIZE ≠ SECURE_ERR_NULL_PTR := by
  exact ⟨rfl, by decide⟩

/-- C2 (amended): `Store` and `Retrieve` fail with `SECURE_ERR_NULL_PTR`
(-1) when the handle or the data/buffer pointer is absent, and with
`SECURE_ERR_INVALID_SIZE` (-5) when the length is zero or exceeds the
capacity; in every such failure case no memory access is performed (empty
action trace) and no state changes (region and buffer are returned
unchanged). -/
theorem store_retrieve_arg_error_taxonomy (mem : secure_memory_t)
    (d buf : Option (List Nat)) (dl bl : List Nat) (len : Nat)
    (g r : Bool) :
    secure_memory_write none d len g r = ⟨SECURE_ERR_NULL_PTR, none, []⟩ ∧
    secure_memory_write (some mem) none len g r =
      ⟨SECURE_ERR_NULL_PTR, some mem, []⟩ ∧
    (len = 0 ∨ mem.size < len →
      secure_memory_write (some mem) (some dl) len g r =
        ⟨SECURE_ERR_INVALID_SIZE, some mem, []⟩) ∧
    secure_memory_read none buf len g r =
      ⟨SECURE_ERR_NULL_PTR, buf, none, []⟩ ∧
    secure_memory_read (some mem) none len g r =
      ⟨SECURE_ERR_NULL_PTR, none, some mem, []⟩ ∧
    (len = 0 ∨ mem.size < len →
      secure_memory_read (some mem) (some bl) len g r =
        ⟨SECURE_ERR_INVALID_SIZE, some bl, some mem, []⟩) := by
  refine ⟨rfl, rfl, ?_, rfl, rfl, ?_⟩ <;> intro h
  · simp only [secure_memory_write]
    rw [if_pos h]
  · simp only [secure_memory_read]
    rw [if_pos h]

/-- C2 witness: the amended taxonomy evaluated at a concrete region,
zero-length store. -/
theorem store_retrieve_arg_error_taxonomy_witness :
    secure_memory_write (some ⟨[0, 0, 0, 0], 4, 4, true, true⟩)
        (some [9]) 0 true true =
      ⟨SECURE_ERR_INVALID_SIZE, some ⟨[0, 0, 0, 0], 4, 4, true, true⟩, []⟩ :=
  (store_retrieve_arg_error_taxonomy ⟨[0, 0, 0, 0], 4, 4, true, true⟩
    none none [9] [] 0 true true).2.2.1 (Or.inl rfl)

/-- C3: `Store` and `Retrieve` with a length strictly greater than the
capacity always fail with `SECURE_ERR_INVALID_SIZE`, perform no action at
all (empty trace, so the rejection happens before any protection change),
and leave the region — contents, protection state and pin state — and the
caller's buffer unchanged. -/
theorem oversize_store_retrieve_rejected (mem : secure_memory_t)
    (d buf : List Nat) (len : Nat) (g r : Bool) (h : mem.size < len) :
    secure_memory_write (some mem) (some d) len g r =
      ⟨SECURE_ERR_INVALID_SIZE, some mem, []⟩ ∧
    secure_memory_read (some mem) (some buf) len g r =
      ⟨SECURE_ERR_INVALID_SIZE, some buf, some mem, []⟩ := by
  constructor
  · simp only [secure_memory_write]
    rw [if_pos (Or.inr h)]
  · simp only [secure_memory_read]
    rw [if_pos (Or.inr h)]

/-- C3 witness: a capacity-4 region rejects a 5-byte store unchanged. -/
theorem oversize_store_retrieve_rejected_witness :
    secure_memory_write (some ⟨[0, 0, 0, 0], 4, 4, true, true⟩)
        (some [1, 2, 3, 4, 5]) 5 true true =
      ⟨SECURE_ERR_INVALID_SIZE, some ⟨[0, 0, 0, 0], 4, 4, true, true⟩, []⟩ :=
  (oversize_store_retrieve_rejected ⟨[0, 0, 0, 0], 4, 4, true, true⟩
    [1, 2, 3, 4, 5] [] 5 true true (by decide)).1

/-- C6: on a live region, `Destroy` always nulls the handle slot, leaves
the backing block's full aligned extent zeroed at release time, and its
action sequence is: grant access (with whatever result `g` the platform
gave, which is ignored), zero the aligned extent, unpin it, release the
backing block, free the handle — and everything after the grant step is
identical whether the grant succeeded or failed. -/
theorem destroy_unconditional_best_effort (mem : secure_memory_t)
    (g : Bool) :
    (secure_memory_destroy (some mem) g).slot = none ∧
    (secure_memory_destroy (some mem) g).finalContents =
      some (List.replicate (alignedSize mem.size mem.page_size) 0) ∧
    (secure_memory_destroy (some mem) g).trace =
      [.protect true g (alignedSize mem.size mem.page_size),
       .zero (alignedSize mem.size mem.page_size),
       .unpin (alignedSize mem.size mem.page_size),
       .freeBacking, .freeHandle] ∧
    (secure_memory_destroy (some mem) g).trace.drop 1 =
      (secure_memory_destroy (some mem) true).trace.drop 1 :=
  ⟨rfl, rfl, rfl, rfl⟩

/-- C7: `GetSize` is total: it returns 0 on an absent handle (at both the
core and the FFI layer) rather than failing, and on the region produced
by a successful `Create(capacity)` (any environment whose platform calls
succeed) it returns exactly the requested capacity. -/
theorem get_size_total_and_correct (cap : Nat) (env : Env) (hcap : 0 < cap)
    (hm : env.mallocOk = true) (ha : env.allocOk = true)
    (hl : env.lockOk = true) (hp : env.protectOk = true) :
    secure_memory_get_size none = 0 ∧ lseco_get_size none = 0 ∧
    (secure_memory_create true cap env).ret = SECURE_SUCCESS ∧
    ∀ mem, (secure_memory_create true cap env).region = some mem →
      secure_memory_get_size (some mem) = cap ∧
      lseco_get_size (some mem) = cap := by
  have hc : ¬cap = 0 := by omega
  refine ⟨rfl, rfl, ?_, ?_⟩
  · simp [secure_memory_create, hc, hm, ha, hl, hp]
  · intro mem hmem
    simp [secure_memory_create, hc, hm, ha, hl, hp] at hmem
    obtain rfl := hmem.symm
    exact ⟨rfl, rfl⟩

/-- C7 witness: capacity 256 with page size 4096 under an all-succeeding
environment. -/
theorem get_size_total_and_correct_witness :
    (secure_memory_create true 256
        ⟨true, true, true, true, 4096, fun _ => 0⟩).ret = SECURE_SUCCESS :=
  (get_size_total_and_correct 256 ⟨true, true, true, true, 4096, fun _ => 0⟩
    (by decide) rfl rfl rfl rfl).2.2.1

/-- C8: `Destroy` nulls the handle slot, a second `Destroy` on the
now-null slot is a total no-op (no actions, nothing zeroed), and
`Destroy` on an absent handle — at the core and at the FFI layer — is a
no-op as well; none of these calls can fault, being total functions. -/
theorem destroy_idempotent_null_safe (mem : secure_memory_t)
    (g1 g2 g3 g4 : Bool) :
    (secure_memory_destroy (some mem) g1).slot = none ∧
    secure_memory_destroy (secure_memory_destroy (some mem) g1).slot g2 =
      ⟨none, none, []⟩ ∧
    secure_memory_destroy none g3 = ⟨none, none, []⟩ ∧
    lseco_destroy none g4 = ⟨none, none, []⟩ :=
  ⟨rfl, rfl, rfl, rfl⟩

/-- C10: `lseco_create` returns NULL exactly when the size is zero or the
core create fails for any reason — so all distinct core failure causes
collapse to the same NULL result — and a non-NULL return implies the core
returned `SECURE_SUCCESS` and handed back that very region. -/
theorem lseco_create_collapses_failures (size : Nat) (env : Env) :
    (size = 0 → lseco_create size env = none) ∧
    ((secure_memory_create true size env).ret ≠ SECURE_SUCCESS →
      lseco_create size env = none) ∧
    ∀ mem, lseco_create size env = some mem →
      (secure_memory_create true size env).ret = SECURE_SUCCESS ∧
      (secure_memory_create true size env).region = some mem := by
  refine ⟨?_, ?_, ?_⟩
  · intro h
    simp [lseco_create, h]
  · intro h
    simp [lseco_create, h]
  · intro mem h
    by_cases hs : size = 0
    · simp [lseco_create, hs] at h
    · by_cases hr : (secure_memory_create true size env).ret = SECURE_SUCCESS
      · exact ⟨hr, by simpa [lseco_create, hs, hr] using h⟩
      · simp [lseco_create, hs, hr] at h

/-- C10 witness: two different failure causes (pinning refused,
protection refused) both collapse to a NULL return. -/
theorem lseco_create_collapses_failures_witness :
    lseco_create 7 ⟨true, true, false, true, 4, fun _ => 0⟩ = none ∧
    lseco_create 7 ⟨true, true, true, false, 4, fun _ => 0⟩ = none :=
  ⟨(lseco_create_collapses_failures 7
      ⟨true, true, false, true, 4, fun _ => 0⟩).2.1 (by decide),
   (lseco_create_collapses_failures 7
      ⟨true, true, true, false, 4, fun _ => 0⟩).2.1 (by decide)⟩

/-- C4: `Create(0)` always fails with `SECURE_ERR_INVALID_SIZE`; each
failing step of `Create` returns its corresponding error (allocation
failures -2, pinning failure -3, protection failure -4); and whenever
`Create` fails, the out-handle is left unwritten, every acquired resource
has been released again (net live handles, backing allocations and pins
are all zero), and the FFI wrapper returns NULL. -/
theorem create_failure_atomicity (size : Nat) (env : Env) :
    (secure_memory_create true 0 env).ret = SECURE_ERR_INVALID_SIZE ∧
    (0 < size → env.mallocOk = false →
      (secure_memory_create true size env).ret = SECURE_ERR_ALLOC_FAILED) ∧
    (0 < size → env.mallocOk = true → env.allocOk = false →
      (secure_memory_create true size env).ret = SECURE_ERR_ALLOC_FAILED) ∧
    (0 < size → env.mallocOk = true → env.allocOk = true →
      env.lockOk = false →
      (secure_memory_create true size env).ret = SECURE_ERR_LOCK_FAILED) ∧
    (0 < size → env.mallocOk = true → env.allocOk = true →
      env.lockOk = true → env.protectOk = false →
      (secure_memory_create true size env).ret =
        SECURE_ERR_PROTECT_FAILED) ∧
    ((secure_memory_create true size env).ret ≠ SECURE_SUCCESS →
      (secure_memory_create true size env).region = none ∧
      netHandle (secure_memory_create true size env).trace = 0 ∧
      netBacking (secure_memory_create true size env).trace = 0 ∧
      netPin (secure_memory_create true size env).trace = 0 ∧
      lseco_create size env = none) := by
  obtain ⟨m, al, l, p, ps, ini⟩ := env
  by_cases hs : size = 0 <;> cases m <;> cases al <;> cases l <;> cases p <;>
    simp_all [secure_memory_create, lseco_create, netHandle, netBacking,
      netPin, SECURE_SUCCESS, SECURE_ERR_NULL_PTR, SECURE_ERR_ALLOC_FAILED,
      SECURE_ERR_LOCK_FAILED, SECURE_ERR_PROTECT_FAILED,
      SECURE_ERR_INVALID_SIZE]

/-- C4 witness: a pin-refusing environment at size 7 leaks nothing and
the FFI wrapper returns NULL. -/
theorem create_failure_atomicity_witness :
    lseco_create 7 ⟨true, true, false, true, 4, fun _ => 0⟩ = none :=
  ((create_failure_atomicity 7
      ⟨true, true, false, true, 4, fun _ => 0⟩).2.2.2.2.2
    (by decide)).2.2.2.2

/-- C5 counterexample: at `size = SIZE_MAX` — which every size check of
the program accepts, since it is nonzero — with page size 4096, the
`size_t` rounding expression of secure_memory.c:118 wraps and computes a
backing size of 0, which is not a multiple of the page size at least the
capacity: the smallest-multiple property fails there. -/
theorem backing_size_wraps_at_size_max :
    alignedSizeC (2 ^ 64 - 1) 4096 = 0 ∧
    ¬(2 ^ 64 - 1 ≤ alignedSizeC (2 ^ 64 - 1) 4096) := by
  constructor
  · decide
  · decide

/-- C5 (amended): whenever the rounding expression of secure_memory.c:118
does not wrap in `size_t` (capacity + page size - 1 ≤ SIZE_MAX), the
`size_t` computation `alignedSizeC` agrees with the unbounded
`alignedSize`, and the backing size it yields is the smallest multiple of
the page size that is at least the capacity; `Store` and `Retrieve`
preserve the fields it is computed from (so it never changes after
creation); and every protection change that `Store`, `Retrieve` and
`Destroy` perform covers exactly this full backing size, never just the
capacity. -/
theorem backing_size_coverage_no_wrap (cap ps : Nat) (hcap : 0 < cap)
    (hps : 0 < ps) (hnw : cap + ps - 1 < 2 ^ 64) :
    alignedSizeC cap ps = alignedSize cap ps ∧
    (ps ∣ alignedSize cap ps ∧ cap ≤ alignedSize cap ps ∧
      ∀ m, ps ∣ m → cap ≤ m → alignedSize cap ps ≤ m) ∧
    (∀ mem : secure_memory_t, mem.size = cap → mem.page_size = ps →
      ∀ len g r,
        (∀ d n,
          n ∈ protectSizes
              (secure_memory_write (some mem) (some d) len g r).trace →
          n = alignedSize cap ps) ∧
        (∀ d mem',
          (secure_memory_write (some mem) (some d) len g r).region =
            some mem' →
          mem'.size = cap ∧ mem'.page_size = ps) ∧
        (∀ buf n,
          n ∈ protectSizes
              (secure_memory_read (some mem) (some buf) len g r).trace →
          n = alignedSize cap ps) ∧
        (∀ buf mem',
          (secure_memory_read (some mem) (some buf) len g r).region =
            some mem' →
          mem'.size = cap ∧ mem'.page_size = ps) ∧
        (∀ n,
          n ∈ protectSizes (secure_memory_destroy (some mem) g).trace →
          n = alignedSize cap ps)) := by
  have hmul : (cap + ps - 1) / ps * ps < 2 ^ 64 :=
    lt_of_le_of_lt (Nat.div_mul_le_self _ _) hnw
  refine ⟨?_, ?_⟩
  · unfold alignedSizeC alignedSize
    rw [Nat.mod_eq_of_lt hnw, Nat.mod_eq_of_lt hmul]
  constructor
  · refine ⟨dvd_mul_left ps ((cap + ps - 1) / ps), ?_, ?_⟩
    · have h1 : cap + ps - 1 < (cap + ps - 1) / ps * ps + ps :=
        Nat.lt_div_mul_add hps
      have h2 : alignedSize cap ps = (cap + ps - 1) / ps * ps := rfl
      set q := (cap + ps - 1) / ps * ps with hq
      omega
    · intro m hm hcm
      obtain ⟨t, rfl⟩ := hm
      have h3 : cap + ps - 1 ≤ ps * t + (ps - 1) := by
        set u := ps * t with hu
        omega
      have h4 : (cap + ps - 1) / ps ≤ t :=
        calc (cap + ps - 1) / ps ≤ (ps * t + (ps - 1)) / ps :=
              Nat.div_le_div_right h3
          _ = t + (ps - 1) / ps := Nat.mul_add_div hps t (ps - 1)
          _ = t := by rw [Nat.div_eq_of_lt (by omega)]; omega
      calc alignedSize cap ps = (cap + ps - 1) / ps * ps := rfl
        _ ≤ t * ps := Nat.mul_le_mul_right ps h4
        _ = ps * t := Nat.mul_comm t ps
  · intro mem hsz hpsz len g r
    subst hsz
    subst hpsz
    refine ⟨?_, ?_, ?_, ?_, ?_⟩
    · intro d n hn
      by_cases hv : len = 0 ∨ mem.size < len
      · simp [secure_memory_write, hv, protectSizes] at hn
      · rw [not_or] at hv
        cases g <;> cases r <;>
          · simp only [secure_memory_write] at hn
            rw [if_neg (not_or.mpr hv)] at hn
            simp [protectSizes] at hn
            tauto
    · intro d mem' hmem
      by_cases hv : len = 0 ∨ mem.size < len
      · simp only [secure_memory_write] at hmem
        rw [if_pos hv] at hmem
        obtain rfl := Option.some.inj hmem
        exact ⟨rfl, rfl⟩
      · cases g <;> cases r <;>
          · simp [secure_memory_write, hv] at hmem
            obtain rfl := hmem.symm
            exact ⟨rfl, rfl⟩
    · intro buf n hn
      by_cases hv : len = 0 ∨ mem.size < len
      · simp [secure_memory_read, hv, protectSizes] at hn
      · rw [not_or] at hv
        cases g <;> cases r <;>
          · simp only [secure_memory_read] at hn
            rw [if_neg (not_or.mpr hv)] at hn
            simp [protectSizes] at hn
            tauto
    · intro buf mem' hmem
      by_cases hv : len = 0 ∨ mem.size < len
      · simp only [secure_memory_read] at hmem
        rw [if_pos hv] at hmem
        obtain rfl := Option.some.inj hmem
        exact ⟨rfl, rfl⟩
      · cases g <;> cases r <;>
          · simp [secure_memory_read, hv] at hmem
            obtain rfl := hmem.symm
            exact ⟨rfl, rfl⟩
    · intro n hn
      simp [secure_memory_destroy, protectSizes] at hn
      tauto

/-- C5 witness: capacity 5 on a 4-byte page, far from the wrap point,
needs an 8-byte backing. -/
theorem backing_size_coverage_no_wrap_witness :
    5 ≤ alignedSize 5 4 :=
  (backing_size_coverage_no_wrap 5 4 (by decide) (by decide)
    (by norm_num)).2.1.2.1

/-- Bytes below the copied length come from the source of a `memcpy`. -/
theorem memcpy_getElem_of_lt (dst src : List Nat) (n i : Nat)
    (hn : n ≤ src.length) (hi : i < n) :
    (memcpy dst src n)[i]? = src[i]? := by
  have hlen : (src.take n).length = n := by
    simp [Nat.min_eq_left hn]
  unfold memcpy
  rw [List.getElem?_append, hlen, if_pos hi]
  simp [List.getElem?_take, hi]

/-- Bytes at or above the copied length are the destination's own. -/
theorem memcpy_getElem_of_ge (dst src : List Nat) (n i : Nat)
    (hn : n ≤ src.length) (hi : n ≤ i) :
    (memcpy dst src n)[i]? = dst[i]? := by
  have hlen : (src.take n).length = n := by
    simp [Nat.min_eq_left hn]
  unfold memcpy
  rw [List.getElem?_append, hlen, if_neg (by omega), List.getElem?_drop]
  have hidx : n + (i - n) = i := by omega
  rw [hidx]

/-- C1: on a region created successfully (all platform calls succeeding),
storing any byte sequence `b` with `0 < len(b) ≤ capacity` and then
retrieving `len(b)` bytes into a buffer of that length succeeds and
returns exactly `b`, byte for byte — the copy is driven purely by the
length, so interior zero bytes are preserved. -/
theorem store_retrieve_round_trip (cap ps : Nat) (ini : Nat → Nat)
    (b buf0 : List Nat) (hb : 0 < b.length) (hcap : b.length ≤ cap)
    (hbuf : buf0.length = b.length) :
    (secure_memory_create true cap ⟨true, true, true, true, ps, ini⟩).ret =
      SECURE_SUCCESS ∧
    ∀ mem,
      (secure_memory_create true cap
          ⟨true, true, true, true, ps, ini⟩).region = some mem →
      (secure_memory_write (some mem) (some b) b.length true true).ret =
        SECURE_SUCCESS ∧
      ∀ mem',
        (secure_memory_write (some mem) (some b) b.length true true).region =
          some mem' →
        (secure_memory_read (some mem') (some buf0) b.length true true).ret =
          SECURE_SUCCESS ∧
        (secure_memory_read (some mem') (some buf0) b.length
            true true).buffer = some b := by
  have hc : ¬cap = 0 := by omega
  refine ⟨by simp [secure_memory_create, hc], ?_⟩
  intro mem hmem
  simp [secure_memory_create, hc] at hmem
  obtain rfl := hmem.symm
  have h0 : ¬b.length = 0 := by omega
  have h1 : ¬cap < b.length := by omega
  constructor
  · simp [secure_memory_write, h0, h1]
  · intro mem' hmem'
    simp [secure_memory_write, h0, h1] at hmem'
    obtain rfl := hmem'.symm
    constructor
    · simp [secure_memory_read, h0, h1]
    · have hdrop : buf0.drop b.length = [] := by
        rw [← hbuf]
        exact List.drop_length buf0
      simp [secure_memory_read, h0, h1, memcpy, hdrop, List.take_length,
        List.take_left]

/-- C1 witness: the spec's binary-integrity scenario — the 16-byte
sequence 0x00 through 0x0F round-trips through a capacity-16 region. -/
theorem store_retrieve_round_trip_witness :
    (secure_memory_create true 16
        ⟨true, true, true, true, 4, fun _ => 0⟩).ret = SECURE_SUCCESS :=
  (store_retrieve_round_trip 16 4 (fun _ => 0)
    [0, 1, 2, 3, 4, 5, 6, 7, 8, 9, 10, 11, 12, 13, 14, 15]
    [9, 9, 9, 9, 9, 9, 9, 9, 9, 9, 9, 9, 9, 9, 9, 9]
    (by decide) (by decide) (by decide)).1

/-- C9: a successful `Store` of `b` truncated to `length` bytes, with
`0 < length < capacity`, writes exactly the first `length` bytes starting
at the region's base and leaves every byte of the region at offset
`length` and beyond exactly as it was before the store. -/
theorem store_frame_preserves_tail (mem : secure_memory_t) (b : List Nat)
    (len : Nat) (h0 : 0 < len) (hlt : len < mem.size)
    (hble : len ≤ b.length) :
    (secure_memory_write (some mem) (some b) len true true).ret =
      SECURE_SUCCESS ∧
    ∀ mem',
      (secure_memory_write (some mem) (some b) len true true).region =
        some mem' →
      (∀ i, i < len → mem'.data[i]? = b[i]?) ∧
      (∀ i, len ≤ i → mem'.data[i]? = mem.data[i]?) := by
  have hz : ¬len = 0 := by omega
  have hs : ¬mem.size < len := by omega
  constructor
  · simp [secure_memory_write, hz, hs]
  · intro mem' hmem'
    simp [secure_memory_write, hz, hs] at hmem'
    obtain rfl := hmem'.symm
    constructor
    · intro i hi
      exact memcpy_getElem_of_lt mem.data b len i hble hi
    · intro i hi
      exact memcpy_getElem_of_ge mem.data b len i hble hi

/-- C9 witness: storing 2 bytes into a capacity-4 region holding sevens
succeeds. -/
theorem store_frame_preserves_tail_witness :
    (secure_memory_write (some ⟨[7, 7, 7, 7], 4, 4, true, true⟩)
        (some [1, 2]) 2 true true).ret = SECURE_SUCCESS :=
  (store_frame_preserves_tail ⟨[7, 7, 7, 7], 4, 4, true, true⟩ [1, 2] 2
    (by decide) (by decide) (by decide)).1

end Lseco
